import Mathlib

/-!
Shallow embedding of the nanocloud machine-pool broker:
`src/api/services/MachineService.js` and `src/api/models/Machine.js`.

Machine ids (uuid strings in the source) and user ids are modelled as `Nat`;
datetimes as epoch instants (`Nat`), a nullable datetime as `Option Nat`.
-/

deriving instance DecidableEq for Except

/-- Error taxonomy of the broker: `driverNotInitializedError`,
`driverAlreadyInitializedError` and `noMachineFoundError` from
`MachineService.js:38-40`, plus a provisioning failure surfaced by
`_driver.createMachine`. -/
inductive MErr where
  | driverNotInitialized
  | driverAlreadyInitialized
  | noMachineFound
  | driverProvisionFailed
deriving DecidableEq, Repr

/-- The machine record (`src/api/models/Machine.js` attributes). Only the
fields the broker logic reads are carried: `id` (primary key), `user` (the
nullable owner reference) and `endDate` (the nullable lease expiry). The
remaining attributes (name, type, ip, username, password, domain, plazaport)
enter no modelled computation. -/
structure Machine where
  id : Nat
  user : Option Nat
  endDate : Option Nat
deriving DecidableEq, Repr

/-- The atomic claim issued by `getMachineForUser` (`MachineService.js:145-157`):
one single SQL statement `UPDATE machine m SET "user" = $1 FROM (SELECT id FROM
machine WHERE "user" IS NULL LIMIT 1 FOR UPDATE SKIP LOCKED) sub WHERE m.id =
sub.id RETURNING *`. One free row (`"user" IS NULL`) is assigned to `uid` and
the updated row returned; with no free row the promise rejects with
`noMachineFoundError` (`MachineService.js:170`). The statement is atomic in
the storage layer, so any concurrent execution is a serial interleaving of
these steps; the row the store picks is modelled as the first free row. -/
def claimOneFreeMachine (uid : Nat) : List Machine → Except MErr Machine × List Machine
  | [] => (Except.error MErr.noMachineFound, [])
  | m :: rest =>
    if m.user.isNone then
      (Except.ok { m with user := some uid }, { m with user := some uid } :: rest)
    else
      ((claimOneFreeMachine uid rest).1, m :: (claimOneFreeMachine uid rest).2)

/-- `Machine.count({ where: { user: null } })` (`MachineService.js:265-269`):
the number of free machines. -/
def countFree (pool : List Machine) : Nat :=
  (pool.filter (fun m => m.user.isNone)).length

/-- The ids of the free machines, in repository order. -/
def freeIds (pool : List Machine) : List Nat :=
  (pool.filter (fun m => m.user.isNone)).map Machine.id

/-- A serial interleaving of atomic claims: each caller in `uids` executes
`claimOneFreeMachine` in turn against the evolving repository state. -/
def runClaims : List Nat → List Machine → List (Except MErr Machine) × List Machine
  | [], pool => ([], pool)
  | u :: us, pool =>
    ((claimOneFreeMachine u pool).1 :: (runClaims us (claimOneFreeMachine u pool).2).1,
     (runClaims us (claimOneFreeMachine u pool).2).2)

/-- The ids of the machines handed out by a list of claim results. -/
def okIds (rs : List (Except MErr Machine)) : List Nat :=
  rs.filterMap (fun r => match r with
    | Except.ok m => some m.id
    | Except.error _ => none)

/-- `Machine.findOne({ where: { user: user.id } })` (`MachineService.js:137-141`). -/
def findOneByUser (uid : Nat) (pool : List Machine) : Option Machine :=
  pool.find? (fun m => m.user == some uid)

/-- Outcome of one `getMachineForUser` call: the settled result, the
repository state afterwards, and whether the claim `UPDATE` was issued. -/
structure GetOutcome where
  result : Except MErr Machine
  pool : List Machine
  claimAttempted : Bool
deriving DecidableEq, Repr

/-- `getMachineForUser` (`MachineService.js:134-178`): fails fast with
`driverNotInitializedError` when `_driver` is null; returns the user's
existing machine when `findOne` hits, touching nothing; otherwise issues the
atomic claim. -/
def getMachineForUser (driverUp : Bool) (uid : Nat) (pool : List Machine) : GetOutcome :=
  if driverUp then
    match findOneByUser uid pool with
    | some m => { result := Except.ok m, pool := pool, claimAttempted := false }
    | none =>
      { result := (claimOneFreeMachine uid pool).1,
        pool := (claimOneFreeMachine uid pool).2,
        claimAttempted := true }
  else
    { result := Except.error MErr.driverNotInitialized, pool := pool, claimAttempted := false }

/-- How a promise chain settles, as seen by its awaiter: fulfilled with a
value, or never settled at all. -/
inductive Settle (α : Type) where
  | settled : α → Settle α
  | pending : Settle α
deriving DecidableEq, Repr

/-- The success continuation of the claim inside `getMachineForUser`
(`MachineService.js:163-168`): `return _updateMachinesPool().then(() =>
resolve(res.rows[0]))`. The claimed row reaches `resolve` only after
`_updateMachinesPool()` fulfils; when the reconcile rejects, the rejection is
unhandled inside the executor and neither `resolve` nor `reject` ever runs,
so the caller's promise stays pending. -/
def claimSuccessSettle (m : Machine) (reconcile : Except MErr Unit) : Settle Machine :=
  match reconcile with
  | Except.ok _ => Settle.settled m
  | Except.error _ => Settle.pending

/-- The counter `_updateMachinesPool` starts its loop from
(`MachineService.js:271`): `(config.machinePoolSize + _awaitingMachines.length)
- machineNbr`, a JS number that may be negative. -/
def poolDeficit (machinePoolSize inFlightCount freeCount : Nat) : Int :=
  ((machinePoolSize : Int) + (inFlightCount : Int)) - (freeCount : Int)

/-- The loop `while (i > 0) { machines.push(_createMachine()); i--; }`
(`MachineService.js:273-276`): the number of `_createMachine` dispatches for a
starting counter `i`. -/
def dispatchWhile (i : Int) : Nat :=
  if 0 < i then dispatchWhile (i - 1) + 1 else 0
termination_by i.toNat
decreasing_by simp_wf; omega

/-- Effect summary of one `_updateMachinesPool` pass. -/
structure PoolPass where
  created : Nat
  inFlightAfter : Nat
  destroyed : Nat
deriving DecidableEq, Repr

/-- `_updateMachinesPool` (`MachineService.js:260-282`): reads
`machinePoolSize`, the length of `_awaitingMachines` and the free count in
one pass, computes the deficit once, and runs the dispatch loop; each
`_createMachine` pushes one entry onto `_awaitingMachines`
(`MachineService.js:237`). The pass contains no repository `destroy` and no
`destroyMachine` call. -/
def updateMachinesPool (machinePoolSize inFlightCount freeCount : Nat) : PoolPass :=
  { created := dispatchWhile (poolDeficit machinePoolSize inFlightCount freeCount),
    inFlightAfter :=
      inFlightCount + dispatchWhile (poolDeficit machinePoolSize inFlightCount freeCount),
    destroyed := 0 }

/-- The module-level state of `MachineService.js`: `_driver` (null until a
driver object is constructed, `MachineService.js:56`) and whether the
`_initializing` promise guard is set (`MachineService.js:66`). -/
structure ServiceState where
  driver : Option String
  initializing : Bool
deriving DecidableEq, Repr

/-- Outcome of one `initialize` call: the settled result, the module state
afterwards, whether a driver object was constructed, and whether
`_updateMachinesPool` was triggered. -/
structure InitOutcome where
  result : Except MErr Unit
  state : ServiceState
  driverConstructed : Bool
  reconcileTriggered : Bool
deriving DecidableEq, Repr

/-- `initialize` of `MachineService.js:102-123`: `assert(_driver === null,
driverAlreadyInitializedError)` guards the whole body, so with `_driver` set
the returned promise rejects and nothing else runs. With `_driver` null and
`_initializing` pending, the pending promise is returned as is; otherwise the
driver named by the `iaas` config key is constructed, initialized, and
`_updateMachinesPool()` is triggered. -/
def initializeBroker (s : ServiceState) (iaas : String) : InitOutcome :=
  if s.driver.isSome then
    { result := Except.error MErr.driverAlreadyInitialized, state := s,
      driverConstructed := false, reconcileTriggered := false }
  else if s.initializing then
    { result := Except.ok (), state := s,
      driverConstructed := false, reconcileTriggered := false }
  else
    { result := Except.ok (), state := { driver := some iaas, initializing := true },
      driverConstructed := true, reconcileTriggered := true }

/-- JS relational comparison `machine.endDate < now` for a nullable datetime:
`null` coerces to `0`, a date compares by its epoch value. -/
def jsDateLt (endDate : Option Nat) (now : Nat) : Bool :=
  decide (endDate.getD 0 < now)

/-- Failure modes of the session probe (`Machine.js:98-105`): the HTTP GET
errs, or `JSON.parse` throws on the body. -/
inductive ProbeErr where
  | probeUnreachable
  | probeMalformed
deriving DecidableEq, Repr

/-- What one firing of the deferred check does: whether `Machine.destroy`
removed the repository record and whether `_driver.destroyMachine` ran (both
via `_terminateMachine`, `MachineService.js:242-249`), and the function's
synchronous return value (always `null`, `MachineService.js:303`). -/
structure CheckOutcome where
  repoRemoved : Bool
  driverDestroyed : Bool
  ret : Option Unit
deriving DecidableEq, Repr

/-- `_shouldTerminateMachine` (`MachineService.js:293-304`) at fire time:
`machine.isSessionActive().then(isActive => { if (!isActive) { if
(machine.endDate < now) _terminateMachine(machine); } }); return null;`.
A rejected probe skips the `then` callback (there is no `catch`), so nothing
is destroyed and the rejection goes nowhere; the function itself returns
`null` synchronously in every case. `endDate` is the field of the machine
object held by the caller. -/
def shouldTerminateMachine (probe : Except ProbeErr Bool) (endDate : Option Nat)
    (now : Nat) : CheckOutcome :=
  match probe with
  | Except.error _ => { repoRemoved := false, driverDestroyed := false, ret := none }
  | Except.ok isActive =>
    if !isActive then
      if jsDateLt endDate now then
        { repoRemoved := true, driverDestroyed := true, ret := none }
      else
        { repoRemoved := false, driverDestroyed := false, ret := none }
    else
      { repoRemoved := false, driverDestroyed := false, ret := none }

/-- A deferred check armed by `setTimeout` (`MachineService.js:206-208`): it
fires at `fireAt` and its closure holds the machine object whose `endDate`
field is the repository value read by `Machine.findOne` before `setEndDate`
ran — `setEndDate` issues a class-level `Machine.update` (`Machine.js:72-81`)
and never mutates the in-memory object. -/
structure ArmedCheck where
  fireAt : Nat
  capturedEndDate : Option Nat
deriving DecidableEq, Repr

/-- `increaseUsersMachineEndDate` (`MachineService.js:197-212`) executed at
time `t` against a machine whose stored `endDate` is `stored`: `findOne`
yields the object carrying `stored`; `setEndDate(sessionDuration)` writes
`t + sessionDuration` to the repository (`Machine.js:72-81`); `setTimeout`
arms the check `sessionDuration` later with that same object captured in its
closure. Returns the new stored `endDate` and the armed check. -/
def increaseUsersMachineEndDate (t sessionDuration : Nat) (stored : Option Nat) :
    Option Nat × ArmedCheck :=
  (some (t + sessionDuration),
   { fireAt := t + sessionDuration, capturedEndDate := stored })

/-- A session record built by `getSessions` (`Machine.js:108-116`):
`username := session[1]`, `state := session[3]` (an absent positional field
is `undefined`, modelled `none`), `userId := this.user`. The synthetic uuid
`id` carries no information and is omitted. -/
structure SessionRec where
  username : Option String
  state : Option String
  userId : Option Nat
deriving DecidableEq, Repr

/-- `getSessions` (`Machine.js:89-120`) once the HTTP response has arrived:
a `JSON.parse(res.body)` throw rejects the promise (`Promise.reject(err)`,
the malformed-payload failure); the parse outcome is modelled as an `Option`
on the payload's `data` array of positional rows. On a parsed body, one
record is pushed per element of `body.data`. -/
def getSessions (machineUser : Option Nat) (parsedBody : Option (List (List String))) :
    Except ProbeErr (List SessionRec) :=
  match parsedBody with
  | none => Except.error ProbeErr.probeMalformed
  | some data =>
    Except.ok (data.map (fun session =>
      { username := session[1]?, state := session[3]?, userId := machineUser }))

/-- `isSessionActive` (`Machine.js:122-135`) on the session list the probe
returned: `if (sessions.length) { const status = sessions[0].state; if
(status === 'Active') return true; } return false;`. -/
def isSessionActive (sessions : List SessionRec) : Bool :=
  match sessions with
  | [] => false
  | s :: _ => s.state == some "Active"

theorem freeIds_cons (m : Machine) (tl : List Machine) :
    freeIds (m :: tl) = if m.user.isNone then m.id :: freeIds tl else freeIds tl := by
  by_cases h : m.user.isNone <;> simp [freeIds, List.filter_cons, h]

theorem countFree_eq_length_freeIds (pool : List Machine) :
    countFree pool = (freeIds pool).length := by
  simp [countFree, freeIds]

theorem claimOneFreeMachine_of_freeIds_nil (u : Nat) (pool : List Machine)
    (h : freeIds pool = []) :
    claimOneFreeMachine u pool = (Except.error MErr.noMachineFound, pool) := by
  induction pool with
  | nil => rfl
  | cons m tl ih =>
    rw [freeIds_cons] at h
    by_cases hm : m.user.isNone
    · simp [hm] at h
    · simp only [hm, if_false] at h
      simp [claimOneFreeMachine, hm, ih h]

theorem claimOneFreeMachine_of_freeIds_cons (u : Nat) (pool : List Machine)
    (i : Nat) (rest : List Nat) (h : freeIds pool = i :: rest) :
    (∃ m : Machine, (claimOneFreeMachine u pool).1 = Except.ok m
      ∧ m.id = i ∧ m.user = some u)
    ∧ freeIds (claimOneFreeMachine u pool).2 = rest := by
  induction pool with
  | nil => simp [freeIds] at h
  | cons m tl ih =>
    rw [freeIds_cons] at h
    by_cases hm : m.user.isNone
    · simp only [hm, if_true] at h
      obtain ⟨hi, hrest⟩ := List.cons.injEq .. ▸ h
      constructor
      · exact ⟨{ m with user := some u }, by simp [claimOneFreeMachine, hm], hi, rfl⟩
      · simp only [claimOneFreeMachine, hm, if_true]
        rw [freeIds_cons]
        simp [hrest]
    · simp only [hm, if_false] at h
      obtain ⟨⟨mm, h1, h2, h3⟩, h4⟩ := ih h
      constructor
      · exact ⟨mm, by simp [claimOneFreeMachine, hm, h1], h2, h3⟩
      · simp [claimOneFreeMachine, hm, freeIds_cons, h4]

theorem runClaims_okIds (uids : List Nat) (pool : List Machine) :
    okIds (runClaims uids pool).1 = (freeIds pool).take uids.length := by
  induction uids generalizing pool with
  | nil => simp [runClaims, okIds]
  | cons u us ih =>
    cases hfree : freeIds pool with
    | nil =>
      have hc := claimOneFreeMachine_of_freeIds_nil u pool hfree
      simp [runClaims, hc, okIds, hfree]
      have := ih pool
      simp [okIds, hfree] at this
      simpa [okIds] using this
    | cons i rest =>
      obtain ⟨⟨m, h1, h2, _⟩, h4⟩ := claimOneFreeMachine_of_freeIds_cons u pool i rest hfree
      simp only [runClaims, okIds, List.filterMap_cons, h1]
      have := ih (claimOneFreeMachine u pool).2
      simp only [okIds] at this
      rw [this, h4, h2]
      simp [hfree]

theorem runClaims_errCount (uids : List Nat) (pool : List Machine) :
    (runClaims uids pool).1.countP
        (fun r => decide (r = Except.error MErr.noMachineFound))
      = uids.length - (freeIds pool).length := by
  induction uids generalizing pool with
  | nil => simp [runClaims]
  | cons u us ih =>
    cases hfree : freeIds pool with
    | nil =>
      have hc := claimOneFreeMachine_of_freeIds_nil u pool hfree
      have := ih pool
      simp [runClaims, hc, List.countP_cons, hfree] at this ⊢
      omega
    | cons i rest =>
      obtain ⟨⟨m, h1, _, _⟩, h4⟩ := claimOneFreeMachine_of_freeIds_cons u pool i rest hfree
      have := ih (claimOneFreeMachine u pool).2
      rw [h4] at this
      simp [runClaims, List.countP_cons, h1, this, hfree]

theorem runClaims_length (uids : List Nat) (pool : List Machine) :
    (runClaims uids pool).1.length = uids.length := by
  induction uids generalizing pool with
  | nil => simp [runClaims]
  | cons u us ih => simp [runClaims, ih]

theorem freeIds_nodup (pool : List Machine) (h : (pool.map Machine.id).Nodup) :
    (freeIds pool).Nodup := by
  have hsub : List.Sublist (freeIds pool) (pool.map Machine.id) :=
    (List.filter_sublist pool).map Machine.id
  exact h.sublist hsub

theorem dispatchWhile_eq (i : Int) : dispatchWhile i = i.toNat := by
  generalize hn : i.toNat = n
  induction n generalizing i with
  | zero =>
    have h0 : ¬ 0 < i := by omega
    rw [dispatchWhile]
    simp [h0]
  | succ k ih =>
    have hpos : 0 < i := by omega
    have hk : (i - 1).toNat = k := by omega
    rw [dispatchWhile, if_pos hpos, ih (i - 1) hk]

/-- Claim C1: against a pool holding exactly M free machines (null user
reference) and N concurrent claim attempts via `getMachineForUser` with
N > M, exactly M attempts succeed, the handed-out machine ids are pairwise
distinct (no machine is returned to two different callers), and the other
N − M attempts fail with `noMachineFound`. The claim `UPDATE` is one atomic
SQL statement, so the storage layer serializes concurrent executions: `uids`
ranges over every serial order of the N callers. -/
theorem claimOneFreeMachine_contention (uids : List Nat) (pool : List Machine)
    (hMN : countFree pool < uids.length)
    (hids : (pool.map Machine.id).Nodup) :
    (okIds (runClaims uids pool).1).length = countFree pool
    ∧ (runClaims uids pool).1.countP
        (fun r => decide (r = Except.error MErr.noMachineFound))
      = uids.length - countFree pool
    ∧ (runClaims uids pool).1.length = uids.length
    ∧ (okIds (runClaims uids pool).1).Nodup := by
  have hlen : (freeIds pool).length ≤ uids.length := by
    rw [← countFree_eq_length_freeIds]; omega
  have htake : (freeIds pool).take uids.length = freeIds pool :=
    List.take_of_length_le hlen
  refine ⟨?_, ?_, runClaims_length uids pool, ?_⟩
  · rw [runClaims_okIds, htake]
    exact (countFree_eq_length_freeIds pool).symm
  · rw [runClaims_errCount, ← countFree_eq_length_freeIds]
  · rw [runClaims_okIds, htake]
    exact freeIds_nodup pool hids

/-- Witness for C1: three callers race for a pool with two free machines;
two succeed with distinct ids, one fails with `noMachineFound`. -/
theorem claimOneFreeMachine_contention_witness :
    (okIds (runClaims [10, 11, 12]
        [⟨1, none, none⟩, ⟨2, some 99, none⟩, ⟨3, none, none⟩]).1).length
      = countFree [⟨1, none, none⟩, ⟨2, some 99, none⟩, ⟨3, none, none⟩]
    ∧ (runClaims [10, 11, 12]
        [⟨1, none, none⟩, ⟨2, some 99, none⟩, ⟨3, none, none⟩]).1.countP
        (fun r => decide (r = Except.error MErr.noMachineFound))
      = [10, 11, 12].length
        - countFree [⟨1, none, none⟩, ⟨2, some 99, none⟩, ⟨3, none, none⟩]
    ∧ (runClaims [10, 11, 12]
        [⟨1, none, none⟩, ⟨2, some 99, none⟩, ⟨3, none, none⟩]).1.length
      = [10, 11, 12].length
    ∧ (okIds (runClaims [10, 11, 12]
        [⟨1, none, none⟩, ⟨2, some 99, none⟩, ⟨3, none, none⟩]).1).Nodup :=
  claimOneFreeMachine_contention [10, 11, 12]
    [⟨1, none, none⟩, ⟨2, some 99, none⟩, ⟨3, none, none⟩] (by decide) (by decide)

/-- Claim C2 (the code violates it): sessionDuration 100; a first
`increaseUsersMachineEndDate` at t = 0 stores expiry 100 and arms a check at
t = 100 whose closure captures the machine object read before the update
(`endDate` still null); a renewal at t = 50 stores expiry 150. At fire time
t = 100 the stored expiry (150) is not past — `jsDateLt` on the re-read value
is false, so per the claim the check must no-op — yet the check, comparing
the captured `machine.endDate`, destroys the machine. -/
theorem deferredCheck_staleExpiry_bug :
    jsDateLt (increaseUsersMachineEndDate 50 100
        (increaseUsersMachineEndDate 0 100 none).1).1
      (increaseUsersMachineEndDate 0 100 none).2.fireAt = false
    ∧ shouldTerminateMachine (Except.ok false)
        (increaseUsersMachineEndDate 0 100 none).2.capturedEndDate
        (increaseUsersMachineEndDate 0 100 none).2.fireAt
      = { repoRemoved := true, driverDestroyed := true, ret := none } := by
  constructor <;> rfl

/-- Claim C3 (amended: destruction requires the fire time to be strictly
after the stored expiry — the source compares `machine.endDate < now` — not
"at or after"): a deferred check firing with no active session and the expiry
strictly past removes the repository record and invokes the driver teardown;
a check firing while a session is active destroys nothing. -/
theorem deferredCheck_fire (endDate now : Nat) (h : endDate < now) :
    shouldTerminateMachine (Except.ok false) (some endDate) now
      = { repoRemoved := true, driverDestroyed := true, ret := none }
    ∧ ∀ e : Option Nat, shouldTerminateMachine (Except.ok true) e now
      = { repoRemoved := false, driverDestroyed := false, ret := none } := by
  constructor
  · simp [shouldTerminateMachine, jsDateLt, h]
  · intro e; rfl

/-- Witness for C3: expiry 3, fire time 7, no active session: both teardown
effects happen; with an active session nothing is destroyed. -/
theorem deferredCheck_fire_witness :
    shouldTerminateMachine (Except.ok false) (some 3) 7
      = { repoRemoved := true, driverDestroyed := true, ret := none }
    ∧ ∀ e : Option Nat, shouldTerminateMachine (Except.ok true) e 7
      = { repoRemoved := false, driverDestroyed := false, ret := none } :=
  deferredCheck_fire 3 7 (by decide)

/-- Claim C3 counterexample: firing exactly at the stored expiry instant
(now = endDate = 5) with no active session, the check destroys nothing,
though the claim as stated ("at or after") requires destruction. -/
theorem deferredCheck_fire_boundary_counterexample :
    shouldTerminateMachine (Except.ok false) (some 5) 5
      = { repoRemoved := false, driverDestroyed := false, ret := none } := by rfl

/-- Claim C4 (amended: the reconcile is awaited, not fire-and-forget): on a
successful claim `getMachineForUser` resolves with the claimed machine only
after `_updateMachinesPool()` fulfils; when the reconcile rejects, the
rejection is unhandled and the caller's promise never settles. -/
theorem claimSettle_awaits_reconcile (m : Machine) :
    claimSuccessSettle m (Except.ok ()) = Settle.settled m
    ∧ ∀ e : MErr, claimSuccessSettle m (Except.error e) = Settle.pending :=
  ⟨rfl, fun _ => rfl⟩

/-- Claim C4 counterexample: with the pool reconcile failing (a driver
provisioning error), the caller's promise does not settle with the claimed
machine — it stays pending. -/
theorem claimSettle_counterexample :
    claimSuccessSettle { id := 1, user := some 5, endDate := none }
      (Except.error MErr.driverProvisionFailed) = Settle.pending := rfl

/-- Claim C5 (amended: the zero-pool-size special case additionally needs the
in-flight count not to exceed the free count): one `_updateMachinesPool` pass
dispatches exactly max(0, machinePoolSize + inFlight − free) creation
operations, each pushed onto the in-flight list, and destroys no machine;
with machinePoolSize 0 and inFlight ≤ free, zero creations are dispatched and
no surplus spare is destroyed. -/
theorem updateMachinesPool_spec (machinePoolSize inFlightCount freeCount : Nat) :
    ((updateMachinesPool machinePoolSize inFlightCount freeCount).created
        = (max 0 (poolDeficit machinePoolSize inFlightCount freeCount)).toNat
      ∧ (updateMachinesPool machinePoolSize inFlightCount freeCount).inFlightAfter
        = inFlightCount
          + (updateMachinesPool machinePoolSize inFlightCount freeCount).created
      ∧ (updateMachinesPool machinePoolSize inFlightCount freeCount).destroyed = 0)
    ∧ (machinePoolSize = 0 → inFlightCount ≤ freeCount →
        (updateMachinesPool machinePoolSize inFlightCount freeCount).created = 0
        ∧ (updateMachinesPool machinePoolSize inFlightCount freeCount).destroyed = 0) := by
  refine ⟨⟨?_, rfl, rfl⟩, ?_⟩
  · show dispatchWhile _ = _
    rw [dispatchWhile_eq]
    rcases le_total (poolDeficit machinePoolSize inFlightCount freeCount) 0 with hle | hle
    · rw [max_eq_left hle]
      omega
    · rw [max_eq_right hle]
  · intro h0 hle
    refine ⟨?_, rfl⟩
    show dispatchWhile _ = 0
    rw [dispatchWhile_eq]
    subst h0
    simp only [poolDeficit]
    omega

/-- Witness for C5: machinePoolSize 0, one creation in flight, two free
machines: the pass dispatches nothing and destroys nothing. -/
theorem updateMachinesPool_spec_witness :
    (updateMachinesPool 0 1 2).created = 0 ∧ (updateMachinesPool 0 1 2).destroyed = 0 :=
  (updateMachinesPool_spec 0 1 2).2 rfl (by decide)

/-- Claim C5 counterexample: with machinePoolSize 0, five in-flight creations
and one free machine, the pass dispatches four creations, so "desiredPoolSize
is 0 and freeCount exceeds 0 implies zero creations" fails as stated (nothing
is destroyed either way). -/
theorem updateMachinesPool_counterexample :
    (updateMachinesPool 0 5 1).created = 4 ∧ (updateMachinesPool 0 5 1).destroyed = 0 := by
  constructor
  · show dispatchWhile (poolDeficit 0 5 1) = 4
    rw [dispatchWhile_eq]
    rfl
  · rfl

/-- Claim C6: for a user who already has a machine assigned, every
`getMachineForUser` call returns that same machine without issuing the claim
`UPDATE` and without touching the pool; two consecutive calls both return it
and neither attempts a claim. -/
theorem getMachineForUser_idempotent (uid : Nat) (pool : List Machine) (m : Machine)
    (h : findOneByUser uid pool = some m) :
    getMachineForUser true uid pool
      = { result := Except.ok m, pool := pool, claimAttempted := false }
    ∧ getMachineForUser true uid (getMachineForUser true uid pool).pool
      = { result := Except.ok m, pool := pool, claimAttempted := false } := by
  have h1 : getMachineForUser true uid pool
      = { result := Except.ok m, pool := pool, claimAttempted := false } := by
    simp [getMachineForUser, h]
  exact ⟨h1, by rw [h1]; exact h1⟩

/-- Witness for C6: user 5 owns machine 1; both consecutive calls return it
with no claim attempted. -/
theorem getMachineForUser_idempotent_witness :
    getMachineForUser true 5 [⟨1, some 5, none⟩]
      = { result := Except.ok ⟨1, some 5, none⟩, pool := [⟨1, some 5, none⟩],
          claimAttempted := false }
    ∧ getMachineForUser true 5 (getMachineForUser true 5 [⟨1, some 5, none⟩]).pool
      = { result := Except.ok ⟨1, some 5, none⟩, pool := [⟨1, some 5, none⟩],
          claimAttempted := false } :=
  getMachineForUser_idempotent 5 [⟨1, some 5, none⟩] ⟨1, some 5, none⟩ (by rfl)

/-- Claim C7: with the driver already initialized (`_driver` non-null), a
second `initialize` call fails with `driverAlreadyInitializedError`, leaves
the module state unchanged, constructs no driver and triggers no pool
reconcile (no re-seeding). -/
theorem initializeBroker_secondCall (s : ServiceState) (d : String) (iaas : String)
    (h : s.driver = some d) :
    initializeBroker s iaas
      = { result := Except.error MErr.driverAlreadyInitialized, state := s,
          driverConstructed := false, reconcileTriggered := false } := by
  simp [initializeBroker, h]

/-- Witness for C7: an initialized broker refuses a second initialization
with no effects. -/
theorem initializeBroker_secondCall_witness :
    initializeBroker { driver := some "aws", initializing := true } "dummy"
      = { result := Except.error MErr.driverAlreadyInitialized,
          state := { driver := some "aws", initializing := true },
          driverConstructed := false, reconcileTriggered := false } :=
  initializeBroker_secondCall { driver := some "aws", initializing := true }
    "aws" "dummy" rfl

/-- Claim C8: the probe's `getSessions` rejects when the HTTP body fails to
parse as JSON; on a parsed body it returns exactly one session record per
element of the payload's `data` array, taking `username` from positional
index 1 and `state` from positional index 3 of that element. -/
theorem getSessions_spec (u : Option Nat) (data : List (List String)) :
    getSessions u none = Except.error ProbeErr.probeMalformed
    ∧ ((getSessions u (some data)).toOption.getD []).length = data.length
    ∧ ∀ (i : Nat), (h : i < data.length) →
        ((getSessions u (some data)).toOption.getD [])[i]?
          = some { username := (data[i])[1]?, state := (data[i])[3]?, userId := u } := by
  refine ⟨rfl, ?_, ?_⟩
  · simp [getSessions, Except.toOption]
  · intro i h
    simp [getSessions, Except.toOption, List.getElem?_map, List.getElem?_eq_getElem h]

/-- Witness for C8: a one-row payload yields one record with username from
index 1 and state from index 3. -/
theorem getSessions_spec_witness :
    ((getSessions (some 7)
        (some [["s", "alice", "x", "Active"]])).toOption.getD [])[0]?
      = some { username := some "alice", state := some "Active", userId := some 7 } := by
  have h := (getSessions_spec (some 7) [["s", "alice", "x", "Active"]]).2.2 0 (by decide)
  simpa using h

/-- Claim C9: when the session probe rejects (unreachable agent or malformed
payload), the fired check destroys nothing — the repository record stays and
the driver is not asked to tear the machine down — and the rejection is
swallowed: `_shouldTerminateMachine` returns `null` whatever the probe
outcome. -/
theorem shouldTerminate_probeError (e : ProbeErr) (d : Option Nat) (now : Nat) :
    shouldTerminateMachine (Except.error e) d now
      = { repoRemoved := false, driverDestroyed := false, ret := none }
    ∧ ∀ probe : Except ProbeErr Bool, (shouldTerminateMachine probe d now).ret = none := by
  refine ⟨rfl, ?_⟩
  intro probe
  match probe with
  | Except.error _ => rfl
  | Except.ok true => rfl
  | Except.ok false =>
    cases hj : jsDateLt d now <;> simp [shouldTerminateMachine, hj]

/-- Claim C10: `isSessionActive` is true exactly when the probe's session
list is non-empty and its first record's state is "Active"; in particular a
list whose only "Active" record is not first reports inactive. -/
theorem isSessionActive_spec (sessions : List SessionRec) :
    (isSessionActive sessions = true
      ↔ ∃ s, sessions.head? = some s ∧ s.state = some "Active")
    ∧ ∀ (s0 : SessionRec) (rest : List SessionRec), s0.state ≠ some "Active" →
        isSessionActive (s0 :: rest) = false := by
  constructor
  · cases sessions with
    | nil => simp [isSessionActive]
    | cons s tl => simp [isSessionActive]
  · intro s0 rest hne
    simp [isSessionActive, hne]

/-- Witness for C10: a list whose second record is "Active" but whose first
is "Disconnected" reports inactive. -/
theorem isSessionActive_spec_witness :
    isSessionActive
      [{ username := some "u", state := some "Disconnected", userId := none },
       { username := some "u", state := some "Active", userId := none }] = false :=
  (isSessionActive_spec
      [{ username := some "u", state := some "Disconnected", userId := none },
       { username := some "u", state := some "Active", userId := none }]).2
    { username := some "u", state := some "Disconnected", userId := none }
    [{ username := some "u", state := some "Active", userId := none }]
    (by decide)
